import Mathlib

/-!
Shallow embedding of the normalization-and-sync core of the ransomware-feed
ingestion scripts `src/main_script/initial_load.py` (Backfill Processor) and
`src/main_script/update_data.py` (Delta Processor).

Python values that may be `None` or a string are modelled by `PyVal`;
a raw JSON record is a mapping whose keys may be absent (`Option.none`),
present with value null (`some PyVal.null`), or present with a string.
Fallible Python code (an expression that can raise) is modelled in
`Except Unit`, where `.error ()` stands for a raised exception.
-/

/-- A Python value that is either `None` or a `str`, as passed around by the
scripts' field-cleaning helpers. -/
inductive PyVal where
  | null
  | str (s : String)
deriving DecidableEq, Repr

deriving instance DecidableEq for Except

/-- Python's `dict.get(key, default)`: the default applies only when the key
is absent; a key present with value `None` yields `None`. -/
def getKey (field : Option PyVal) (default : PyVal) : PyVal :=
  field.getD default

/-- Whitespace characters recognized by Python's `str.strip()` and by the
regex `\s` (ASCII range; the feed's fields are ASCII). -/
def isPySpace (c : Char) : Bool :=
  c = ' ' ∨ c = '\t' ∨ c = '\n' ∨ c = '\x0d' ∨ c = '\x0b' ∨ c = '\x0c'

/-- Python's `str.strip()` on a string: drop whitespace from both ends. -/
def trimPy (s : String) : String :=
  ⟨((s.data.dropWhile isPySpace).reverse.dropWhile isPySpace).reverse⟩

/-- ASCII lowercasing of one character, as `str.lower()` acts on the ASCII
range. -/
def lowerChar (c : Char) : Char :=
  if 'A' ≤ c ∧ c ≤ 'Z' then Char.ofNat (c.toNat + 32) else c

/-- Python's `str.lower()` (ASCII range). -/
def toLowerPy (s : String) : String :=
  ⟨s.data.map lowerChar⟩

/-- Python's `str.strip()` on a `PyVal`: raises `AttributeError` on `None`
(modelled as `.error ()`), trims surrounding whitespace on a string. -/
def stripPy : PyVal → Except Unit String
  | .null => .error ()
  | .str s => .ok (trimPy s)

/-- A Python `datetime.datetime` as produced by `datetime.strptime`. -/
structure PyDatetime where
  year : Nat
  month : Nat
  day : Nat
  hour : Nat
  minute : Nat
  second : Nat
  microsecond : Nat
deriving DecidableEq, Repr

/-- The comparison key of a datetime: Python compares datetimes
field-by-field, most significant first. -/
def PyDatetime.fields (d : PyDatetime) : List Nat :=
  [d.year, d.month, d.day, d.hour, d.minute, d.second, d.microsecond]

/-- Strict lexicographic order on lists of naturals. -/
def lexLtNat : List Nat → List Nat → Bool
  | [], [] => false
  | [], _ :: _ => true
  | _ :: _, [] => false
  | a :: as, b :: bs => if a < b then true else if b < a then false else lexLtNat as bs

/-- Python's `<` on datetimes. -/
def dtLt (a b : PyDatetime) : Bool :=
  lexLtNat a.fields b.fields

/-! ### The date parser (`parse_date`, initial_load.py lines 50-67 and
update_data.py lines 119-136)

`datetime.strptime(s, fmt)` compiles `fmt` to a regex (CPython `_strptime`):
`%Y` is exactly four digits, `%m` is `1[0-2]|0[1-9]|[1-9]`, `%d` is
`3[01]|[12]\d|0[1-9]|[1-9]`, `%H` is `2[0-3]|[0-1]\d|\d`, `%M` is
`[0-5]\d|\d`, `%S` is `6[0-1]|[0-5]\d|\d`, `%f` is `[0-9]{1,6}` (padded
right with zeros to six digits), and a whitespace in the format matches one
or more whitespace characters. The regex must consume the whole string
("unconverted data remains" otherwise raises), and the `datetime`
constructor then validates calendar ranges (day against days-in-month,
second at most 59, year at least 1). The parsers below implement exactly
this; the alternation order of the regex character classes is reproduced,
which for these formats coincides with a no-backtracking greedy parse
because the character following each numeric field in a successful match is
never a digit. -/

/-- Numeric value of a digit character. -/
def dval (c : Char) : Nat := c.toNat - 48

/-- Four-digit year, `%Y`. -/
def pYear : List Char → Option (Nat × List Char)
  | a :: b :: c :: d :: rest =>
    if a.isDigit ∧ b.isDigit ∧ c.isDigit ∧ d.isDigit then
      some (1000 * dval a + 100 * dval b + 10 * dval c + dval d, rest)
    else none
  | _ => none

/-- A literal character of the format. -/
def pLit (ch : Char) : List Char → Option (List Char)
  | c :: rest => if c = ch then some rest else none
  | [] => none

/-- Month, `%m`: regex `1[0-2]|0[1-9]|[1-9]`. -/
def pMon : List Char → Option (Nat × List Char)
  | a :: b :: rest =>
    if a = '1' ∧ '0' ≤ b ∧ b ≤ '2' then some (10 + dval b, rest)
    else if a = '0' ∧ '1' ≤ b ∧ b ≤ '9' then some (dval b, rest)
    else if '1' ≤ a ∧ a ≤ '9' then some (dval a, b :: rest)
    else none
  | [a] => if '1' ≤ a ∧ a ≤ '9' then some (dval a, []) else none
  | [] => none

/-- Day of month, `%d`: regex `3[01]|[12]\d|0[1-9]|[1-9]`. -/
def pDay : List Char → Option (Nat × List Char)
  | a :: b :: rest =>
    if a = '3' ∧ (b = '0' ∨ b = '1') then some (30 + dval b, rest)
    else if (a = '1' ∨ a = '2') ∧ b.isDigit then some (10 * dval a + dval b, rest)
    else if a = '0' ∧ '1' ≤ b ∧ b ≤ '9' then some (dval b, rest)
    else if '1' ≤ a ∧ a ≤ '9' then some (dval a, b :: rest)
    else none
  | [a] => if '1' ≤ a ∧ a ≤ '9' then some (dval a, []) else none
  | [] => none

/-- Hour, `%H`: regex `2[0-3]|[0-1]\d|\d`. -/
def pHour : List Char → Option (Nat × List Char)
  | a :: b :: rest =>
    if a = '2' ∧ '0' ≤ b ∧ b ≤ '3' then some (20 + dval b, rest)
    else if (a = '0' ∨ a = '1') ∧ b.isDigit then some (10 * dval a + dval b, rest)
    else if a.isDigit then some (dval a, b :: rest)
    else none
  | [a] => if a.isDigit then some (dval a, []) else none
  | [] => none

/-- Minute, `%M`: regex `[0-5]\d|\d`. -/
def pMin : List Char → Option (Nat × List Char)
  | a :: b :: rest =>
    if '0' ≤ a ∧ a ≤ '5' ∧ b.isDigit then some (10 * dval a + dval b, rest)
    else if a.isDigit then some (dval a, b :: rest)
    else none
  | [a] => if a.isDigit then some (dval a, []) else none
  | [] => none

/-- Second, `%S`: regex `6[0-1]|[0-5]\d|\d` (values 60 and 61 match the
regex but are rejected later by the `datetime` constructor). -/
def pSec : List Char → Option (Nat × List Char)
  | a :: b :: rest =>
    if a = '6' ∧ (b = '0' ∨ b = '1') then some (60 + dval b, rest)
    else if '0' ≤ a ∧ a ≤ '5' ∧ b.isDigit then some (10 * dval a + dval b, rest)
    else if a.isDigit then some (dval a, b :: rest)
    else none
  | [a] => if a.isDigit then some (dval a, []) else none
  | [] => none

/-- Fractional seconds, `%f`: one to six digits, greedily, padded to
microseconds. -/
def pFrac (cs : List Char) : Option (Nat × List Char) :=
  let ds := (cs.takeWhile Char.isDigit).take 6
  if ds.isEmpty then none
  else some ((ds.foldl (fun a c => 10 * a + dval c) 0) * 10 ^ (6 - ds.length), cs.drop ds.length)

/-- One-or-more whitespace: a whitespace character in a strptime format is
compiled to `\s+`. -/
def pSpaces : List Char → Option (List Char)
  | c :: rest => if isPySpace c then some (rest.dropWhile isPySpace) else none
  | [] => none

/-- Whether a year is a Gregorian leap year (Python `calendar.isleap`). -/
def isLeap (y : Nat) : Bool :=
  y % 4 = 0 ∧ (y % 100 ≠ 0 ∨ y % 400 = 0)

/-- Days in a month, as validated by the `datetime` constructor. -/
def daysInMonth (y m : Nat) : Nat :=
  if m = 2 then (if isLeap y then 29 else 28)
  else if m = 4 ∨ m = 6 ∨ m = 9 ∨ m = 11 then 30
  else 31

/-- The `datetime.datetime` constructor: validates all field ranges,
raising `ValueError` (here: `none`) when any is out of range. -/
def mkDatetime (y m d hh mi ss us : Nat) : Option PyDatetime :=
  if 1 ≤ y ∧ y ≤ 9999 ∧ 1 ≤ m ∧ m ≤ 12 ∧ 1 ≤ d ∧ d ≤ daysInMonth y m ∧
     hh ≤ 23 ∧ mi ≤ 59 ∧ ss ≤ 59 ∧ us ≤ 999999 then
    some ⟨y, m, d, hh, mi, ss, us⟩
  else none

/-- The `%Y-%m-%d` portion shared by all three formats. -/
def pDatePart (cs : List Char) : Option (Nat × Nat × Nat × List Char) :=
  match pYear cs with
  | none => none
  | some (y, cs1) =>
    match pLit '-' cs1 with
    | none => none
    | some cs2 =>
      match pMon cs2 with
      | none => none
      | some (m, cs3) =>
        match pLit '-' cs3 with
        | none => none
        | some cs4 =>
          match pDay cs4 with
          | none => none
          | some (d, cs5) => some (y, m, d, cs5)

/-- The `%H:%M:%S` portion shared by the two timed formats. -/
def pTimePart (cs : List Char) : Option (Nat × Nat × Nat × List Char) :=
  match pHour cs with
  | none => none
  | some (hh, cs1) =>
    match pLit ':' cs1 with
    | none => none
    | some cs2 =>
      match pMin cs2 with
      | none => none
      | some (mi, cs3) =>
        match pLit ':' cs3 with
        | none => none
        | some cs4 =>
          match pSec cs4 with
          | none => none
          | some (ss, cs5) => some (hh, mi, ss, cs5)

/-- `datetime.strptime(s, "%Y-%m-%d %H:%M:%S.%f")`. -/
def strpMicro (s : String) : Option PyDatetime :=
  match pDatePart s.data with
  | none => none
  | some (y, m, d, r0) =>
    match pSpaces r0 with
    | none => none
    | some r1 =>
      match pTimePart r1 with
      | none => none
      | some (hh, mi, ss, r2) =>
        match pLit '.' r2 with
        | none => none
        | some r3 =>
          match pFrac r3 with
          | none => none
          | some (us, r4) => if r4 = [] then mkDatetime y m d hh mi ss us else none

/-- `datetime.strptime(s, "%Y-%m-%d %H:%M:%S")`. -/
def strpSeconds (s : String) : Option PyDatetime :=
  match pDatePart s.data with
  | none => none
  | some (y, m, d, r0) =>
    match pSpaces r0 with
    | none => none
    | some r1 =>
      match pTimePart r1 with
      | none => none
      | some (hh, mi, ss, r2) => if r2 = [] then mkDatetime y m d hh mi ss 0 else none

/-- `datetime.strptime(s, "%Y-%m-%d")`. -/
def strpDateOnly (s : String) : Option PyDatetime :=
  match pDatePart s.data with
  | none => none
  | some (y, m, d, rest) => if rest = [] then mkDatetime y m d 0 0 0 0 else none

/-- The list of formats tried by `parse_date`, in source order
(initial_load.py lines 55-59, update_data.py lines 124-128). -/
def date_formats : List (String → Option PyDatetime) :=
  [strpMicro, strpSeconds, strpDateOnly]

/-- The `for date_format in date_formats` loop: return the first successful
parse, falling through on `ValueError`. -/
def tryFormats : List (String → Option PyDatetime) → String → Option PyDatetime
  | [], _ => none
  | f :: fs, s =>
    match f s with
    | some d => some d
    | none => tryFormats fs s

/-- `parse_date` (initial_load.py lines 50-67, update_data.py lines
119-136): `None` or the empty string is falsy and yields `None`
immediately; otherwise the three formats are tried in order and `None` is
returned when all fail. -/
def parse_date (v : PyVal) : Option PyDatetime :=
  match v with
  | .null => none
  | .str s => if s = "" then none else tryFormats date_formats s

example : parse_date (.str "2024-06-15") = some ⟨2024, 6, 15, 0, 0, 0, 0⟩ := by decide
example : parse_date (.str "2024-06-15 10:20:30") = some ⟨2024, 6, 15, 10, 20, 30, 0⟩ := by decide
example : parse_date (.str "2024-06-15 10:20:30.5") = some ⟨2024, 6, 15, 10, 20, 30, 500000⟩ := by decide
example : parse_date (.str "03/14/2024") = none := by decide
example : parse_date (.str "2024-02-30") = none := by decide
example : parse_date (.str "") = none := by decide
example : parse_date .null = none := by decide

/-! ### Field cleaning helpers -/

/-- `clean_sector` of the Backfill Processor (initial_load.py lines 44-48):
`if not sector or sector.lower() in ['not found', 'unknown']: return 'Other'`,
else `sector.strip()`. The membership test uses the un-trimmed, lowered
input. -/
def clean_sector_initial (sector : PyVal) : String :=
  match sector with
  | .null => "Other"
  | .str s =>
    if s = "" then "Other"
    else if toLowerPy s = "not found" ∨ toLowerPy s = "unknown" then "Other"
    else trimPy s

/-- `clean_sector` of the Delta Processor (update_data.py lines 142-146):
`if not sector or sector.strip() == '' or sector.strip().lower() == 'not
found': return 'Other'`, else `sector.strip()`. Note "unknown" is not a
sentinel here. -/
def clean_sector_update (sector : PyVal) : String :=
  match sector with
  | .null => "Other"
  | .str s =>
    if s = "" then "Other"
    else if trimPy s = "" then "Other"
    else if toLowerPy (trimPy s) = "not found" then "Other"
    else trimPy s

/-- `extract_month` of the Backfill Processor (initial_load.py lines 69-71):
`date.month if date else None` — an integer. -/
def extract_month_initial : Option PyDatetime → Option Nat
  | some d => some d.month
  | none => none

/-- Python's `datetime.strftime("%m")`: the month as a zero-padded
two-digit decimal string. -/
def strf_m (m : Nat) : String :=
  if m < 10 then "0" ++ toString m else toString m

/-- `extract_month` of the Delta Processor (update_data.py lines 138-140):
`date_obj.strftime("%m") if date_obj else None` — a string, not an
integer. -/
def extract_month_update : Option PyDatetime → Option String
  | some d => some (strf_m d.month)
  | none => none

/-! ### Raw and canonical records -/

/-- A raw feed record: each key may be absent (`Option.none`), present with
a null value (`some .null`), or present with a string. -/
structure RawRecord where
  activity : Option PyVal := none
  country : Option PyVal := none
  post_title : Option PyVal := none
  group_name : Option PyVal := none
  discovered : Option PyVal := none
  published : Option PyVal := none
deriving DecidableEq, Repr

/-- The canonical record built by the Backfill Processor's dict literal
(initial_load.py lines 130-138); `month` is an integer. -/
structure CanonicalRecordB where
  sector : String
  country : String
  post_title : String
  group_name : String
  discovered_date : PyDatetime
  attack_date : Option PyDatetime
  month : Option Nat
deriving DecidableEq, Repr

/-- The canonical record built by the Delta Processor's dict literal
(update_data.py lines 186-194); `month` is a `strftime("%m")` string. -/
structure CanonicalRecordD where
  sector : String
  country : String
  post_title : String
  group_name : String
  discovered_date : PyDatetime
  attack_date : Option PyDatetime
  month : Option String
deriving DecidableEq, Repr

/-- The Backfill Processor's dict literal (initial_load.py lines 130-138),
evaluated once the year guard has passed. Field expressions are evaluated in
source order; `item.get('country', '').strip()` and the two analogous
expressions raise `AttributeError` when the key is present with a null
value, modelled by `stripPy`. -/
def build_record_initial (item : RawRecord) (dd : PyDatetime) (ad : Option PyDatetime) :
    Except Unit CanonicalRecordB :=
  match stripPy (getKey item.country (.str "")) with
  | .error e => .error e
  | .ok country =>
    match stripPy (getKey item.post_title (.str "")) with
    | .error e => .error e
    | .ok post_title =>
      match stripPy (getKey item.group_name (.str "Other")) with
      | .error e => .error e
      | .ok g =>
        .ok { sector := clean_sector_initial (getKey item.activity .null)
              country := country
              post_title := post_title
              group_name := if g = "" then "Other" else g
              discovered_date := dd
              attack_date := ad
              month := extract_month_initial (some dd) }

/-- The Delta Processor's dict literal (update_data.py lines 186-194). -/
def build_record_delta (item : RawRecord) (dd : PyDatetime) (ad : Option PyDatetime) :
    Except Unit CanonicalRecordD :=
  match stripPy (getKey item.country (.str "")) with
  | .error e => .error e
  | .ok country =>
    match stripPy (getKey item.post_title (.str "")) with
    | .error e => .error e
    | .ok post_title =>
      match stripPy (getKey item.group_name (.str "Other")) with
      | .error e => .error e
      | .ok g =>
        .ok { sector := clean_sector_update (getKey item.activity .null)
              country := country
              post_title := post_title
              group_name := if g = "" then "Other" else g
              discovered_date := dd
              attack_date := ad
              month := extract_month_update (some dd) }

/-- One iteration of the Backfill Processor's loop body (initial_load.py
lines 124-139): parse the dates, keep the record only when
`discovered_date` parsed and its year equals the target year. `.ok none`
means the record was skipped. -/
def process_item_initial (year : Nat) (item : RawRecord) :
    Except Unit (Option CanonicalRecordB) :=
  match parse_date (getKey item.discovered (.str "")) with
  | none => .ok none
  | some dd =>
    if dd.year == year then
      (build_record_initial item dd (parse_date (getKey item.published (.str "")))).map some
    else .ok none

/-- Whether a discovered date passes the Delta Processor's watermark test
(update_data.py line 185): `latest_date is None or discovered_date >
latest_date`. -/
def watermark_pass (latest : Option PyDatetime) (dd : PyDatetime) : Bool :=
  match latest with
  | none => true
  | some w => dtLt w dd

/-- One iteration of the Delta Processor's loop body (update_data.py lines
177-195): keep the record only when `discovered_date` parsed, its year is
2025, and it is strictly newer than the watermark. In the source
`attack_date` is computed before the guard; `parse_date` never raises, so
inlining it into the kept branch is observably identical. -/
def process_item_delta (latest : Option PyDatetime) (item : RawRecord) :
    Except Unit (Option CanonicalRecordD) :=
  match parse_date (getKey item.discovered (.str "")) with
  | none => .ok none
  | some dd =>
    if dd.year == 2025 && watermark_pass latest dd then
      (build_record_delta item dd (parse_date (getKey item.published (.str "")))).map some
    else .ok none

/-- The Backfill Processor's `processed_data` accumulation loop
(initial_load.py lines 123-139): items are processed in order and the first
raised exception aborts the run. -/
def processed_data_initial (year : Nat) : List RawRecord → Except Unit (List CanonicalRecordB)
  | [] => .ok []
  | item :: rest =>
    match process_item_initial year item with
    | .error e => .error e
    | .ok o =>
      match processed_data_initial year rest with
      | .error e => .error e
      | .ok l => .ok (match o with | some c => c :: l | none => l)

/-- The Delta Processor's `processed_data` accumulation loop (update_data.py
lines 176-195). -/
def processed_data_delta (latest : Option PyDatetime) :
    List RawRecord → Except Unit (List CanonicalRecordD)
  | [] => .ok []
  | item :: rest =>
    match process_item_delta latest item with
    | .error e => .error e
    | .ok o =>
      match processed_data_delta latest rest with
      | .error e => .error e
      | .ok l => .ok (match o with | some c => c :: l | none => l)

/-! ### The pandas post-processing (initial_load.py lines 148-151,
update_data.py lines 204-211)

`df.dropna(subset=['discovered_date'])` removes no rows, because every
processed item has a `datetime` in that column by the loop guard. The
`replace` calls substitute exact matches per column; the listed values
`None` and `float('nan')` never match here because every value in these
columns is a string at this point. The replacement lists are identical in
both scripts. -/

/-- pandas `replace` on the `sector` column. -/
def replace_sector (s : String) : String :=
  if s = "" ∨ s = "nan" ∨ s = "Not Found" then "Other" else s

/-- pandas `replace` on the `group_name` column. -/
def replace_group (s : String) : String :=
  if s = "" ∨ s = "nan" then "Other" else s

/-- pandas `replace` on the `country` column. -/
def replace_country (s : String) : String :=
  if s = "nan" then "" else s

/-- The pandas cleanup applied to every Backfill row. -/
def pandas_clean_initial (r : CanonicalRecordB) : CanonicalRecordB :=
  { r with
    sector := replace_sector r.sector
    group_name := replace_group r.group_name
    country := replace_country r.country }

/-- The pandas cleanup applied to every Delta row. -/
def pandas_clean_delta (r : CanonicalRecordD) : CanonicalRecordD :=
  { r with
    sector := replace_sector r.sector
    group_name := replace_group r.group_name
    country := replace_country r.country }

/-- Observation helper: the sector the Backfill Processor would store for a
raw record (per-item pipeline followed by the pandas cleanup), `none` when
the record is skipped or the pipeline raises. -/
def backfill_sector_of (year : Nat) (item : RawRecord) : Option String :=
  match process_item_initial year item with
  | .ok (some c) => some (pandas_clean_initial c).sector
  | _ => none

/-- Observation helper: the sector the Delta Processor would store for a
raw record. -/
def delta_sector_of (latest : Option PyDatetime) (item : RawRecord) : Option String :=
  match process_item_delta latest item with
  | .ok (some c) => some (pandas_clean_delta c).sector
  | _ => none

/-- Observation helper: the `month` value the Delta Processor would store
for a raw record. -/
def delta_month_of (latest : Option PyDatetime) (item : RawRecord) : Option String :=
  match process_item_delta latest item with
  | .ok (some c) => (pandas_clean_delta c).month
  | _ => none

/-! ### Datastore and run-level models

The datastore is modelled per partition as the list of its rows in insert
order. A `Bool` flag stands for whether the corresponding database
operation succeeds; `Except Unit` models a Python exception propagating out
of the function. -/

/-- `clear_existing_data` (initial_load.py lines 81-92): `TRUNCATE TABLE ...
RESTART IDENTITY`. On failure the exception is logged and re-raised. -/
def clear_existing_data (truncate_ok : Bool) : Except Unit Unit :=
  if truncate_ok then .ok () else .error ()

/-- `SELECT MAX(discovered_date) FROM ransomware_data_2025`: `None` on an
empty partition. -/
def maxDiscovered (rows : List CanonicalRecordD) : Option PyDatetime :=
  rows.foldl
    (fun acc r =>
      match acc with
      | none => some r.discovered_date
      | some m => if dtLt m r.discovered_date then some r.discovered_date else some m)
    none

/-- `get_latest_record_date` (update_data.py lines 81-93): on any exception
while connecting or querying, the error is logged and `None` is returned —
the exception is NOT re-raised. -/
def get_latest_record_date (db_ok : Bool) (rows : List CanonicalRecordD) :
    Option PyDatetime :=
  if db_ok then maxDiscovered rows else none

/-- `process_and_save_data_by_year` (initial_load.py lines 109-175) for one
year: truncate, then process the fetched list (`[]` models both an empty
feed and a fetch whose retries were exhausted, since `fetch_data` returns
`[]` on `RequestException`). The result is the final partition contents and
the number of rows bulk-inserted (0 when the insert was never reached). The
prior partition contents do not appear: they are discarded by the
truncate. -/
def process_and_save_data_by_year (truncate_ok : Bool) (year : Nat)
    (yearly_data : List RawRecord) : Except Unit (List CanonicalRecordB × Nat) :=
  match clear_existing_data truncate_ok with
  | .error e => .error e
  | .ok _ =>
    if yearly_data.isEmpty then .ok ([], 0)
    else
      match processed_data_initial year yearly_data with
      | .error e => .error e
      | .ok processed =>
        if processed.isEmpty then .ok ([], 0)
        else
          let dfRows := processed.map pandas_clean_initial
          .ok (dfRows, dfRows.length)

/-- A snapshot CSV written by `save_to_csv` (update_data.py lines 148-162),
tagged by its target directory. -/
inductive DeltaSnapshot where
  | new_records (rows : List CanonicalRecordD)
  | current_state (rows : List CanonicalRecordD)
deriving DecidableEq, Repr

/-- Insertion into a list kept in descending `discovered_date` order. -/
def insertDesc (r : CanonicalRecordD) : List CanonicalRecordD → List CanonicalRecordD
  | [] => [r]
  | x :: xs => if dtLt r.discovered_date x.discovered_date then x :: insertDesc r xs else r :: x :: xs

/-- `SELECT * ... ORDER BY discovered_date DESC` (update_data.py lines
239-242). -/
def sortDesc (l : List CanonicalRecordD) : List CanonicalRecordD :=
  l.foldr insertDesc []

/-- `process_and_save_delta` (update_data.py lines 164-249): read the
watermark (recovering a failed read into `None`), process the fetched list
with the watermark filter, and if nothing survived return with no writes and
no snapshot; otherwise write the "new records" snapshot, append the cleaned
survivors to the 2025 partition, and write the "current state" snapshot of
the full partition ordered by descending discovered date. Returns the final
partition contents and the snapshots written, in order. -/
def delta_core (latest_date : Option PyDatetime) (new_data : List RawRecord)
    (rows : List CanonicalRecordD) :
    Except Unit (List CanonicalRecordD × List DeltaSnapshot) :=
  match processed_data_delta latest_date new_data with
  | .error e => .error e
  | .ok processed =>
    if processed.isEmpty then .ok (rows, [])
    else
      .ok (rows ++ processed.map pandas_clean_delta,
           [.new_records (processed.map pandas_clean_delta),
            .current_state (sortDesc (rows ++ processed.map pandas_clean_delta))])

/-- The full `process_and_save_delta` entry point: the watermark read comes
first, recovering a failed read into `None` (see `get_latest_record_date`),
then `delta_core` runs. -/
def process_and_save_delta (db_ok : Bool) (new_data : List RawRecord)
    (rows : List CanonicalRecordD) :
    Except Unit (List CanonicalRecordD × List DeltaSnapshot) :=
  delta_core (get_latest_record_date db_ok rows) new_data rows

/-! ### Concrete sample records used by witnesses and counterexamples -/

/-- A raw record with only a discovered date in 2024. -/
def rawJune2024 : RawRecord := { discovered := some (.str "2024-06-15") }

/-- A raw record with only a discovered date in 2025. -/
def rawJune2025 : RawRecord := { discovered := some (.str "2025-06-15") }

/-- The canonical row the Backfill Processor builds from `rawJune2024`. -/
def rowJune2024 : CanonicalRecordB :=
  { sector := "Other", country := "", post_title := "", group_name := "Other"
    discovered_date := ⟨2024, 6, 15, 0, 0, 0, 0⟩, attack_date := none, month := some 6 }

/-- The canonical row the Delta Processor builds from `rawJune2025`. -/
def rowJune2025 : CanonicalRecordD :=
  { sector := "Other", country := "", post_title := "", group_name := "Other"
    discovered_date := ⟨2025, 6, 15, 0, 0, 0, 0⟩, attack_date := none, month := some "06" }

/-- A 2025 raw record whose `activity` is the exact string "unknown". -/
def rawUnknown2025 : RawRecord :=
  { activity := some (.str "unknown"), discovered := some (.str "2025-06-15") }

/-- A 2024 raw record whose `activity` is " Unknown " with surrounding
whitespace. -/
def rawSpacedUnknown2024 : RawRecord :=
  { activity := some (.str " Unknown "), discovered := some (.str "2024-06-15") }

/-- A 2024 raw record whose `country` key is present with a null value. -/
def rawNullCountry2024 : RawRecord :=
  { country := some .null, discovered := some (.str "2024-06-15") }

/-- A 2025 raw record whose `group_name` key is present with a null
value. -/
def rawNullGroup2025 : RawRecord :=
  { group_name := some .null, discovered := some (.str "2025-06-15") }

/-- The spec's example watermark 2025-03-01T00:00:00. -/
def wmMarch2025 : PyDatetime := ⟨2025, 3, 1, 0, 0, 0, 0⟩

/-- Raw records carrying the spec's three candidate discovered dates. -/
def rawFeb28 : RawRecord := { discovered := some (.str "2025-02-28") }

def rawMar01 : RawRecord := { discovered := some (.str "2025-03-01") }

def rawMar02 : RawRecord := { discovered := some (.str "2025-03-02") }

/-- The canonical row the Delta Processor builds from `rawMar02`. -/
def rowMar02 : CanonicalRecordD :=
  { sector := "Other", country := "", post_title := "", group_name := "Other"
    discovered_date := ⟨2025, 3, 2, 0, 0, 0, 0⟩, attack_date := none, month := some "03" }

example : process_item_initial 2024 rawJune2024 = .ok (some rowJune2024) := by decide
example : process_item_delta none rawJune2025 = .ok (some rowJune2025) := by decide
example : process_item_delta (some wmMarch2025) rawFeb28 = .ok none := by decide
example : process_item_delta (some wmMarch2025) rawMar01 = .ok none := by decide
example : process_item_delta (some wmMarch2025) rawMar02 = .ok (some rowMar02) := by decide
example : process_item_initial 2024 rawNullCountry2024 = .error () := by decide
example : delta_sector_of none rawUnknown2025 = some "unknown" := by decide
example : backfill_sector_of 2024 rawSpacedUnknown2024 = some "Unknown" := by decide
example : delta_month_of none rawJune2025 = some "06" := by decide

/-! ### Supporting lemmas -/

/-- A datetime accepted by the constructor has its month in 1..12. -/
theorem mkDatetime_month {y m d hh mi ss us : Nat} {dt : PyDatetime}
    (h : mkDatetime y m d hh mi ss us = some dt) :
    1 ≤ dt.month ∧ dt.month ≤ 12 := by
  unfold mkDatetime at h
  split at h
  · rename_i hc
    cases h
    exact ⟨hc.2.2.1, hc.2.2.2.1⟩
  · exact Option.noConfusion h

/-- Any datetime produced by the date-only format has its month in 1..12. -/
theorem strpDateOnly_month {s : String} {dt : PyDatetime}
    (h : strpDateOnly s = some dt) : 1 ≤ dt.month ∧ dt.month ≤ 12 := by
  unfold strpDateOnly at h
  repeat' first
  | exact mkDatetime_month h
  | exact Option.noConfusion h
  | split at h

/-- Any datetime produced by the seconds format has its month in 1..12. -/
theorem strpSeconds_month {s : String} {dt : PyDatetime}
    (h : strpSeconds s = some dt) : 1 ≤ dt.month ∧ dt.month ≤ 12 := by
  unfold strpSeconds at h
  repeat' first
  | exact mkDatetime_month h
  | exact Option.noConfusion h
  | split at h

/-- Any datetime produced by the microseconds format has its month in
1..12. -/
theorem strpMicro_month {s : String} {dt : PyDatetime}
    (h : strpMicro s = some dt) : 1 ≤ dt.month ∧ dt.month ≤ 12 := by
  unfold strpMicro at h
  repeat' first
  | exact mkDatetime_month h
  | exact Option.noConfusion h
  | split at h

/-- Any datetime returned by `parse_date` has its month in 1..12. -/
theorem parse_date_month {v : PyVal} {dt : PyDatetime}
    (h : parse_date v = some dt) : 1 ≤ dt.month ∧ dt.month ≤ 12 := by
  cases v with
  | null => exact Option.noConfusion h
  | str s =>
    simp only [parse_date] at h
    by_cases hs : s = ""
    · rw [if_pos hs] at h; exact Option.noConfusion h
    · rw [if_neg hs] at h
      simp only [date_formats, tryFormats] at h
      cases h1 : strpMicro s with
      | some d => rw [h1] at h; cases h; exact strpMicro_month h1
      | none =>
        rw [h1] at h
        cases h2 : strpSeconds s with
        | some d => rw [h2] at h; cases h; exact strpSeconds_month h2
        | none =>
          rw [h2] at h
          cases h3 : strpDateOnly s with
          | some d => rw [h3] at h; cases h; exact strpDateOnly_month h3
          | none => rw [h3] at h; exact Option.noConfusion h

/-- Lexicographic order on equal lists is false. -/
theorem lexLtNat_irrefl : ∀ l : List Nat, lexLtNat l l = false
  | [] => rfl
  | a :: as => by
    unfold lexLtNat
    rw [if_neg (lt_irrefl a), if_neg (lt_irrefl a)]
    exact lexLtNat_irrefl as

/-- Python's datetime `<` is irreflexive. -/
theorem dtLt_irrefl (d : PyDatetime) : dtLt d d = false :=
  lexLtNat_irrefl d.fields

/-- Fields of a successfully built Backfill record. -/
theorem build_record_initial_fields {item : RawRecord} {dd : PyDatetime}
    {ad : Option PyDatetime} {c : CanonicalRecordB}
    (h : build_record_initial item dd ad = .ok c) :
    c.discovered_date = dd ∧ c.month = some dd.month ∧
    c.sector = clean_sector_initial (getKey item.activity .null) := by
  unfold build_record_initial at h
  split at h
  · exact Except.noConfusion h
  · split at h
    · exact Except.noConfusion h
    · split at h
      · exact Except.noConfusion h
      · injection h with h
        subst h
        exact ⟨rfl, rfl, rfl⟩

/-- Fields of a successfully built Delta record. -/
theorem build_record_delta_fields {item : RawRecord} {dd : PyDatetime}
    {ad : Option PyDatetime} {c : CanonicalRecordD}
    (h : build_record_delta item dd ad = .ok c) :
    c.discovered_date = dd ∧ c.month = some (strf_m dd.month) ∧
    c.sector = clean_sector_update (getKey item.activity .null) := by
  unfold build_record_delta at h
  split at h
  · exact Except.noConfusion h
  · split at h
    · exact Except.noConfusion h
    · split at h
      · exact Except.noConfusion h
      · injection h with h
        subst h
        exact ⟨rfl, rfl, rfl⟩

/-- What holds of every record the Backfill loop keeps: its discovered
date is the parsed one, the year matches the target year, and `month` is
the integer month of the discovered date. -/
theorem process_item_initial_ok {year : Nat} {item : RawRecord}
    {c : CanonicalRecordB} (h : process_item_initial year item = .ok (some c)) :
    parse_date (getKey item.discovered (.str "")) = some c.discovered_date ∧
    c.discovered_date.year = year ∧
    c.month = some c.discovered_date.month := by
  unfold process_item_initial at h
  split at h
  · exact Option.noConfusion (Except.ok.inj h)
  · rename_i dd hp
    split at h
    · rename_i hy
      cases hb : build_record_initial item dd
          (parse_date (getKey item.published (.str ""))) with
      | error e => rw [hb] at h; exact Except.noConfusion h
      | ok c' =>
        rw [hb] at h
        simp only [Except.map] at h
        injection h with h
        injection h with h
        subst h
        obtain ⟨hdd, hm, _⟩ := build_record_initial_fields hb
        refine ⟨?_, ?_, ?_⟩
        · rw [hdd]; exact hp
        · rw [hdd]; exact eq_of_beq hy
        · rw [hdd]; exact hm
    · exact Option.noConfusion (Except.ok.inj h)

/-- What holds of every record the Delta loop keeps, together with the
builder equation needed to replay the build under a different watermark. -/
theorem process_item_delta_ok {latest : Option PyDatetime} {item : RawRecord}
    {c : CanonicalRecordD} (h : process_item_delta latest item = .ok (some c)) :
    parse_date (getKey item.discovered (.str "")) = some c.discovered_date ∧
    c.discovered_date.year = 2025 ∧
    watermark_pass latest c.discovered_date = true ∧
    c.month = some (strf_m c.discovered_date.month) ∧
    build_record_delta item c.discovered_date
      (parse_date (getKey item.published (.str ""))) = .ok c := by
  unfold process_item_delta at h
  split at h
  · exact Option.noConfusion (Except.ok.inj h)
  · rename_i dd hp
    split at h
    · rename_i hg
      cases hb : build_record_delta item dd
          (parse_date (getKey item.published (.str ""))) with
      | error e => rw [hb] at h; exact Except.noConfusion h
      | ok c' =>
        rw [hb] at h
        simp only [Except.map] at h
        injection h with h
        injection h with h
        subst h
        obtain ⟨hdd, hm, _⟩ := build_record_delta_fields hb
        obtain ⟨hy, hw⟩ := Bool.and_eq_true_iff.mp hg
        refine ⟨?_, ?_, ?_, ?_, ?_⟩
        · rw [hdd]; exact hp
        · rw [hdd]; exact eq_of_beq hy
        · rw [hdd]; exact hw
        · rw [hdd]; exact hm
        · rw [hdd]; exact hb
    · exact Option.noConfusion (Except.ok.inj h)

/-- The pandas cleanup does not touch the discovered date (Backfill). -/
theorem pandas_clean_initial_discovered (r : CanonicalRecordB) :
    (pandas_clean_initial r).discovered_date = r.discovered_date := rfl

/-- The pandas cleanup does not touch the discovered date (Delta). -/
theorem pandas_clean_delta_discovered (r : CanonicalRecordD) :
    (pandas_clean_delta r).discovered_date = r.discovered_date := rfl

/-- Every record accumulated by the Backfill loop has the target year. -/
theorem processed_initial_year {year : Nat} :
    ∀ {items : List RawRecord} {l : List CanonicalRecordB},
      processed_data_initial year items = .ok l →
      ∀ c ∈ l, c.discovered_date.year = year := by
  intro items
  induction items with
  | nil =>
    intro l h c hc
    simp only [processed_data_initial] at h
    injection h with h
    subst h
    exact absurd hc (List.not_mem_nil c)
  | cons item rest ih =>
    intro l h c hc
    simp only [processed_data_initial] at h
    split at h
    · exact Except.noConfusion h
    · rename_i o ho
      split at h
      · exact Except.noConfusion h
      · rename_i l' hl'
        injection h with h
        subst h
        cases o with
        | none => exact ih hl' c hc
        | some c0 =>
          rcases List.mem_cons.mp hc with hh | hh
          · subst hh
            exact (process_item_initial_ok ho).2.1
          · exact ih hl' c hh

/-- Every record accumulated by the Delta loop has year 2025 and passes the
watermark test. -/
theorem processed_delta_ok {latest : Option PyDatetime} :
    ∀ {items : List RawRecord} {l : List CanonicalRecordD},
      processed_data_delta latest items = .ok l →
      ∀ c ∈ l, c.discovered_date.year = 2025 ∧
        watermark_pass latest c.discovered_date = true := by
  intro items
  induction items with
  | nil =>
    intro l h c hc
    simp only [processed_data_delta] at h
    injection h with h
    subst h
    exact absurd hc (List.not_mem_nil c)
  | cons item rest ih =>
    intro l h c hc
    simp only [processed_data_delta] at h
    split at h
    · exact Except.noConfusion h
    · rename_i o ho
      split at h
      · exact Except.noConfusion h
      · rename_i l' hl'
        injection h with h
        subst h
        cases o with
        | none => exact ih hl' c hc
        | some c0 =>
          rcases List.mem_cons.mp hc with hh | hh
          · subst hh
            obtain ⟨_, hy, hw, _, _⟩ := process_item_delta_ok ho
            exact ⟨hy, hw⟩
          · exact ih hl' c hh

/-- A record kept under watermark `w` is exactly a record kept with no
watermark whose discovered date is strictly newer than `w`. -/
theorem process_item_delta_watermark_iff (w : PyDatetime) (item : RawRecord)
    (c : CanonicalRecordD) :
    process_item_delta (some w) item = .ok (some c) ↔
    (process_item_delta none item = .ok (some c) ∧
     dtLt w c.discovered_date = true) := by
  constructor
  · intro h
    obtain ⟨hp, hy, hw, _, hb⟩ := process_item_delta_ok h
    refine ⟨?_, hw⟩
    unfold process_item_delta
    rw [hp]
    have hyb : (c.discovered_date.year == 2025) = true := beq_iff_eq.mpr hy
    simp only [watermark_pass, hyb, Bool.and_true, if_true]
    rw [hb]
    rfl
  · rintro ⟨h0, hlt⟩
    obtain ⟨hp, hy, _, _, hb⟩ := process_item_delta_ok h0
    unfold process_item_delta
    rw [hp]
    have hyb : (c.discovered_date.year == 2025) = true := beq_iff_eq.mpr hy
    simp only [watermark_pass, hyb, hlt, Bool.and_self, if_true]
    rw [hb]
    rfl

/-! ### Claim theorems -/

/-- C1 (counterexample): in the Delta Processor the raw `activity` value
"unknown" is NOT normalized to "Other" — the stored sector is "unknown",
because `clean_sector` in update_data.py only treats blank and "not found"
as sentinels. -/
theorem c1_unknown_counterexample :
    delta_sector_of none rawUnknown2025 = some "unknown" ∧
    delta_sector_of none rawUnknown2025 ≠ some "Other" :=
  ⟨by decide, by decide⟩

/-- C1 (amended): absent/null/empty `activity`, and any casing of
"not found" or "unknown", normalize to "Other" in the Backfill Processor;
in the Delta Processor absent/null/blank-after-trim `activity` and any
casing of "not found" (after trimming) normalize to "Other", but "unknown"
is stored trimmed, not replaced. The pandas `replace` pass keeps all of
these outcomes. -/
theorem c1_sector_defaults_amended :
    (∀ s : String, (s = "" ∨ toLowerPy s = "not found" ∨ toLowerPy s = "unknown") →
       replace_sector (clean_sector_initial (.str s)) = "Other") ∧
    replace_sector (clean_sector_initial .null) = "Other" ∧
    (∀ s : String, (trimPy s = "" ∨ toLowerPy (trimPy s) = "not found") →
       replace_sector (clean_sector_update (.str s)) = "Other") ∧
    replace_sector (clean_sector_update .null) = "Other" ∧
    replace_sector (clean_sector_update (.str "unknown")) = "unknown" := by
  refine ⟨?_, by decide, ?_, by decide, by decide⟩
  · intro s h
    rcases h with rfl | h | h
    · decide
    · by_cases hs : s = ""
      · subst hs; decide
      · have hc : clean_sector_initial (.str s) = "Other" := by
          simp only [clean_sector_initial]
          rw [if_neg hs, if_pos (Or.inl h)]
        rw [hc]; decide
    · by_cases hs : s = ""
      · subst hs; decide
      · have hc : clean_sector_initial (.str s) = "Other" := by
          simp only [clean_sector_initial]
          rw [if_neg hs, if_pos (Or.inr h)]
        rw [hc]; decide
  · intro s h
    by_cases hs : s = ""
    · subst hs; decide
    · rcases h with h | h
      · have hc : clean_sector_update (.str s) = "Other" := by
          simp only [clean_sector_update]
          rw [if_neg hs, if_pos h]
        rw [hc]; decide
      · by_cases ht : trimPy s = ""
        · have hc : clean_sector_update (.str s) = "Other" := by
            simp only [clean_sector_update]
            rw [if_neg hs, if_pos ht]
          rw [hc]; decide
        · have hc : clean_sector_update (.str s) = "Other" := by
            simp only [clean_sector_update]
            rw [if_neg hs, if_neg ht, if_pos h]
          rw [hc]; decide

/-- C1 (witness): the backfill half of the amended claim applied to the
concrete casing "NOT FOUND". -/
theorem c1_sector_defaults_witness :
    replace_sector (clean_sector_initial (.str "NOT FOUND")) = "Other" :=
  c1_sector_defaults_amended.1 "NOT FOUND" (Or.inr (Or.inl (by decide)))

/-- C2 (counterexample): the Delta Processor stores the month of a
2025-06-15 record as the zero-padded string "06" (via `strftime("%m")`),
not as the integer 6. -/
theorem c2_month_string_counterexample :
    delta_month_of none rawJune2025 = some "06" :=
  by decide

/-- C2 (amended): in the Backfill Processor `month` is the integer month
(1-12) of `discovered_date`, and normalizing discovered="2024-06-15" for
target year 2024 yields discovered_date 2024-06-15T00:00:00 with month 6;
in the Delta Processor `month` is the two-digit `strftime("%m")` string of
the month, and a discovered="2024-06-15" record is excluded by the
year-2025 filter rather than normalized. -/
theorem c2_month_amended :
    (∀ (y : Nat) (item : RawRecord) (c : CanonicalRecordB),
       process_item_initial y item = .ok (some c) →
       c.month = some c.discovered_date.month ∧
       1 ≤ c.discovered_date.month ∧ c.discovered_date.month ≤ 12) ∧
    process_item_initial 2024 rawJune2024 = .ok (some rowJune2024) ∧
    rowJune2024.discovered_date = ⟨2024, 6, 15, 0, 0, 0, 0⟩ ∧
    rowJune2024.month = some 6 ∧
    (∀ (l : Option PyDatetime) (item : RawRecord) (c : CanonicalRecordD),
       process_item_delta l item = .ok (some c) →
       c.month = some (strf_m c.discovered_date.month)) ∧
    process_item_delta none rawJune2024 = .ok none := by
  refine ⟨?_, by decide, by decide, by decide, ?_, by decide⟩
  · intro y item c h
    obtain ⟨hp, _, hm⟩ := process_item_initial_ok h
    exact ⟨hm, parse_date_month hp⟩
  · intro l item c h
    exact (process_item_delta_ok h).2.2.2.1

/-- C2 (witness): the backfill half of the amended claim applied to the
concrete June 2024 record. -/
theorem c2_month_witness :
    rowJune2024.month = some rowJune2024.discovered_date.month ∧
    1 ≤ rowJune2024.discovered_date.month ∧
    rowJune2024.discovered_date.month ≤ 12 :=
  c2_month_amended.1 2024 rawJune2024 rowJune2024 (by decide)

/-- C3 (counterexample): a failed watermark read is not fatal. With the
database read failing over a non-empty partition (whose true maximum is
2025-06-15), `get_latest_record_date` returns `None` instead of raising,
and the delta run continues and returns normally. -/
theorem c3_watermark_swallowed_counterexample :
    maxDiscovered [rowJune2025] = some ⟨2025, 6, 15, 0, 0, 0, 0⟩ ∧
    get_latest_record_date false [rowJune2025] = none ∧
    process_and_save_delta false [] [rowJune2025] = .ok ([rowJune2025], []) :=
  ⟨by decide, by decide, by decide⟩

/-- C3 (amended): a Backfill truncate/connection failure is fatal — the
exception propagates and the run for that year stops; but the Delta
Processor's watermark read failure is caught, logged, and recovered into an
empty watermark (`None`), after which the run proceeds exactly as if the
watermark were absent. -/
theorem c3_fatal_amended :
    (∀ (year : Nat) (data : List RawRecord),
       process_and_save_data_by_year false year data = .error ()) ∧
    (∀ rows : List CanonicalRecordD, get_latest_record_date false rows = none) ∧
    (∀ (data : List RawRecord) (rows : List CanonicalRecordD),
       process_and_save_delta false data rows = delta_core none data rows) :=
  ⟨fun _ _ => rfl, fun _ => rfl, fun _ _ => rfl⟩

/-- C5 (code bug): a raw record whose `country` (resp. `group_name`) key is
present with a null value makes normalization raise `AttributeError`
(`None.strip()`), aborting the whole processing loop, instead of completing
with the documented defaults. -/
theorem c5_null_key_crash :
    process_item_initial 2024 rawNullCountry2024 = .error () ∧
    process_item_delta none rawNullGroup2025 = .error () ∧
    processed_data_initial 2024 [rawJune2024, rawNullCountry2024] = .error () :=
  ⟨by decide, by decide, by decide⟩

/-- C10 (confirmed): the Backfill sentinel comparison lowercases but does
not trim, so `activity` = " Unknown " escapes the sentinel list and is
stored as the trimmed original "Unknown", not "Other" — including after the
pandas replace pass. -/
theorem c10_untrimmed_sentinel :
    clean_sector_initial (.str " Unknown ") = "Unknown" ∧
    backfill_sector_of 2024 rawSpacedUnknown2024 = some "Unknown" ∧
    backfill_sector_of 2024 rawSpacedUnknown2024 ≠ some "Other" :=
  ⟨by decide, by decide, by decide⟩

/-- C4 (confirmed): the Delta Processor keeps exactly the normalized
records strictly newer than the watermark — a kept record is a valid
no-watermark record with `dtLt watermark date`, a record equal to the
watermark is excluded, and on the spec's example only the 2025-03-02
candidate survives a 2025-03-01 watermark. -/
theorem c4_strict_watermark_filter :
    (∀ (w : PyDatetime) (item : RawRecord) (c : CanonicalRecordD),
       process_item_delta (some w) item = .ok (some c) ↔
       (process_item_delta none item = .ok (some c) ∧
        dtLt w c.discovered_date = true)) ∧
    (∀ (w : PyDatetime) (item : RawRecord) (c : CanonicalRecordD),
       process_item_delta (some w) item = .ok (some c) →
       c.discovered_date ≠ w) ∧
    processed_data_delta (some wmMarch2025) [rawFeb28, rawMar01, rawMar02] =
      .ok [rowMar02] := by
  refine ⟨process_item_delta_watermark_iff, ?_, by decide⟩
  intro w item c h hEq
  obtain ⟨_, _, hw, _, _⟩ := process_item_delta_ok h
  simp only [watermark_pass] at hw
  rw [hEq, dtLt_irrefl] at hw
  exact Bool.noConfusion hw

/-- C4 (witness): the filter equivalence applied to the spec's surviving
candidate 2025-03-02 under the 2025-03-01 watermark. -/
theorem c4_strict_watermark_witness :
    process_item_delta (some wmMarch2025) rawMar02 = .ok (some rowMar02) :=
  (c4_strict_watermark_filter.1 wmMarch2025 rawMar02 rowMar02).mpr
    ⟨by decide, by decide⟩

/-- C6 (confirmed): every row stored by a successful backfill run has the
partition's year, and a delta run over a partition whose rows all have year
2025 leaves only rows with year 2025 (it inserts only current-year
records). -/
theorem c6_partition_year_invariant :
    (∀ (t : Bool) (year : Nat) (data : List RawRecord)
       (res : List CanonicalRecordB) (n : Nat),
       process_and_save_data_by_year t year data = .ok (res, n) →
       ∀ r ∈ res, r.discovered_date.year = year) ∧
    (∀ (db_ok : Bool) (data : List RawRecord) (old res : List CanonicalRecordD)
       (snaps : List DeltaSnapshot),
       process_and_save_delta db_ok data old = .ok (res, snaps) →
       (∀ r ∈ old, r.discovered_date.year = 2025) →
       ∀ r ∈ res, r.discovered_date.year = 2025) := by
  constructor
  · intro t year data res n h
    unfold process_and_save_data_by_year at h
    split at h
    · exact Except.noConfusion h
    · split at h
      · injection h with h
        injection h with h1 h2
        subst h1
        intro r hr
        exact absurd hr (List.not_mem_nil r)
      · split at h
        · exact Except.noConfusion h
        · rename_i p hp
          split at h
          · injection h with h
            injection h with h1 h2
            subst h1
            intro r hr
            exact absurd hr (List.not_mem_nil r)
          · injection h with h
            injection h with h1 h2
            subst h1
            intro r hr
            obtain ⟨c, hc, rfl⟩ := List.mem_map.mp hr
            rw [pandas_clean_initial_discovered]
            exact processed_initial_year hp c hc
  · intro db_ok data old res snaps h hold
    unfold process_and_save_delta delta_core at h
    split at h
    · exact Except.noConfusion h
    · rename_i p hp
      split at h
      · injection h with h
        injection h with h1 h2
        subst h1
        exact hold
      · injection h with h
        injection h with h1 h2
        subst h1
        intro r hr
        rcases List.mem_append.mp hr with hr | hr
        · exact hold r hr
        · obtain ⟨c, hc, rfl⟩ := List.mem_map.mp hr
          rw [pandas_clean_delta_discovered]
          exact (processed_delta_ok hp c hc).1

/-- C6 (witness): the backfill half applied to the concrete June 2024
record, whose run stores exactly one year-2024 row. -/
theorem c6_partition_year_witness :
    ∀ r ∈ [rowJune2024], r.discovered_date.year = 2024 :=
  c6_partition_year_invariant.1 true 2024 [rawJune2024] [rowJune2024] 1 (by decide)

/-- C7 (confirmed): `parse_date` returns `None` on absent/empty input,
tries the microseconds, seconds, and date-only formats in that order
returning the first success, returns `None` when all three fail, and on
concrete inputs behaves as the spec's examples require (in particular
"03/14/2024" yields `None` rather than raising). -/
theorem c7_date_format_priority :
    parse_date .null = none ∧
    parse_date (.str "") = none ∧
    (∀ (s : String) (d : PyDatetime), strpMicro s = some d →
       parse_date (.str s) = some d) ∧
    (∀ (s : String) (d : PyDatetime), strpMicro s = none → strpSeconds s = some d →
       parse_date (.str s) = some d) ∧
    (∀ (s : String) (d : PyDatetime), strpMicro s = none → strpSeconds s = none →
       strpDateOnly s = some d → parse_date (.str s) = some d) ∧
    (∀ s : String, strpMicro s = none → strpSeconds s = none →
       strpDateOnly s = none → parse_date (.str s) = none) ∧
    parse_date (.str "2024-06-15 10:20:30.5") = some ⟨2024, 6, 15, 10, 20, 30, 500000⟩ ∧
    parse_date (.str "2024-06-15 10:20:30") = some ⟨2024, 6, 15, 10, 20, 30, 0⟩ ∧
    parse_date (.str "2024-06-15") = some ⟨2024, 6, 15, 0, 0, 0, 0⟩ ∧
    parse_date (.str "03/14/2024") = none := by
  refine ⟨by decide, by decide, ?_, ?_, ?_, ?_, by decide, by decide, by decide, by decide⟩
  · intro s d h
    by_cases hs : s = ""
    · subst hs
      rw [show strpMicro "" = none from rfl] at h
      exact Option.noConfusion h
    · simp only [parse_date, if_neg hs, date_formats, tryFormats, h]
  · intro s d h1 h2
    by_cases hs : s = ""
    · subst hs
      rw [show strpSeconds "" = none from rfl] at h2
      exact Option.noConfusion h2
    · simp only [parse_date, if_neg hs, date_formats, tryFormats, h1, h2]
  · intro s d h1 h2 h3
    by_cases hs : s = ""
    · subst hs
      rw [show strpDateOnly "" = none from rfl] at h3
      exact Option.noConfusion h3
    · simp only [parse_date, if_neg hs, date_formats, tryFormats, h1, h2, h3]
  · intro s h1 h2 h3
    by_cases hs : s = ""
    · simp [parse_date, hs]
    · simp only [parse_date, if_neg hs, date_formats, tryFormats, h1, h2, h3]

/-- C7 (witness): the date-only priority case applied to a concrete
string. -/
theorem c7_date_format_witness :
    parse_date (.str "2025-03-02") = some ⟨2025, 3, 2, 0, 0, 0, 0⟩ :=
  c7_date_format_priority.2.2.2.2.1 "2025-03-02" ⟨2025, 3, 2, 0, 0, 0, 0⟩
    (by decide) (by decide) (by decide)

/-- C8 (confirmed): an empty fetched list (also what a fetch with exhausted
retries returns) leaves the already-truncated backfill partition empty with
no insert, and makes the delta run return with the partition unchanged and
no snapshot written. -/
theorem c8_empty_fetch_guard :
    (∀ year : Nat, process_and_save_data_by_year true year [] = .ok ([], 0)) ∧
    (∀ (db_ok : Bool) (old : List CanonicalRecordD),
       process_and_save_delta db_ok [] old = .ok (old, [])) :=
  ⟨fun _ => rfl, fun _ _ => rfl⟩

/-- C9 (confirmed): a successful delta run only appends — the resulting
partition is the old partition followed, in place and unchanged, by the
newly inserted rows. -/
theorem c9_delta_append_only :
    ∀ (db_ok : Bool) (data : List RawRecord) (old res : List CanonicalRecordD)
      (snaps : List DeltaSnapshot),
      process_and_save_delta db_ok data old = .ok (res, snaps) →
      ∃ appended, res = old ++ appended := by
  intro db_ok data old res snaps h
  unfold process_and_save_delta delta_core at h
  split at h
  · exact Except.noConfusion h
  · rename_i p hp
    split at h
    · injection h with h
      injection h with h1 h2
      exact ⟨[], by rw [← h1, List.append_nil]⟩
    · injection h with h
      injection h with h1 h2
      exact ⟨p.map pandas_clean_delta, h1.symm⟩

/-- C9 (witness): the append-only property applied to a concrete run over a
one-row partition with nothing fetched. -/
theorem c9_delta_append_witness :
    ∃ appended, [rowJune2025] = [rowJune2025] ++ appended :=
  c9_delta_append_only true [] [rowJune2025] [rowJune2025] [] (by decide)
